import Mathlib

/-!
Verification development for the Veo3 quickstart agent repository.

The definitions below are a shallow embedding of the repository's
TypeScript source: the agent actions (generate-veo-video,
check-video-status, clear-project, track-generation,
update-video-status), the composed in-memory state containers
(video-project, media-library, veo-analytics, veo-preferences) and the
file-backed image store.  Nondeterministic effects (fetch responses,
crypto.randomUUID, Date.now, URL.createObjectURL) are passed in as
explicit parameters; the on-disk image directory is modelled as a map
from file names to byte lists; JavaScript numbers are modelled as exact
rationals, with JavaScript truthiness made explicit where the code
branches on it.
-/

namespace VeoAgent

/-! ## Models and request enumerations (generate-veo-video schema) -/

/-- The three members of the schema's model enum. -/
inductive VeoModel
  | veo3      -- the string "veo-3.0-generate-preview"
  | veo3fast  -- the string "veo-3.0-fast-generate-preview"
  | veo2      -- the string "veo-2.0-generate-001"
  deriving DecidableEq

/-- The literal model identifier string of each enum member. -/
def modelId : VeoModel → String
  | .veo3 => "veo-3.0-generate-preview"
  | .veo3fast => "veo-3.0-fast-generate-preview"
  | .veo2 => "veo-2.0-generate-001"

/-- Embeds the check `model?.startsWith('veo-3.0')` (string prefix test
on the model identifier, stated over the character list). -/
def isVeo3 (m : VeoModel) : Bool :=
  List.isPrefixOf (String.toList ("veo-3.0")) (String.toList (modelId m))

/-- Embeds the check `model === 'veo-2.0-generate-001'`. -/
def isVeo2 (m : VeoModel) : Bool := modelId m == ("veo-2.0-generate-001")

/-- The schema's aspect-ratio enum for video generation. -/
inductive AspectRatio
  | ar16x9  -- the string "16:9"
  | ar9x16  -- the string "9:16"
  deriving DecidableEq

/-- The schema's person-generation enum. -/
inductive PersonGen
  | allow_all
  | allow_adult
  | dont_allow
  deriving DecidableEq

/-- JavaScript truthiness of an optional string: `undefined` and the
empty string are falsy. -/
def strTruthy : Option String → Bool
  | none => false
  | some s => s != ""

/-- JavaScript truthiness of an optional boolean. -/
def boolTruthy : Option Bool → Bool
  | none => false
  | some b => b

/-- JavaScript truthiness of a number known to be an integer: zero is
falsy. -/
def natTruthy (n : Nat) : Bool := n != 0

/-- JavaScript truthiness of an optional person-generation value: every
member of the enum is a nonempty string, hence truthy when present. -/
def pgTruthy : Option PersonGen → Bool
  | none => false
  | some _ => true

/-- A parsed generate-veo-video request after zod defaulting: `model`
defaults to the first Veo 3 model, `aspectRatio` to 16:9 and
`numberOfVideos` to 1 (schema bounds 1..2). -/
structure GenerateVideoRequest where
  prompt : String
  model : VeoModel := .veo3
  negativePrompt : Option String := none
  aspectRatio : AspectRatio := .ar16x9
  personGeneration : Option PersonGen := none
  numberOfVideos : Nat := 1
  useImageId : Option String := none
  useLatestImage : Option Bool := none
  imageFile : Option String := none
  deriving DecidableEq

/-- Whether any of the three image inputs is truthy; the person
generation check in the handler tests the negation
`!imageFile && !useImageId && !useLatestImage`. -/
def hasImageInput (r : GenerateVideoRequest) : Bool :=
  strTruthy r.imageFile || strTruthy r.useImageId || boolTruthy r.useLatestImage

/-- The condition of the handler's first early return:
`isVeo3 && aspectRatio === '9:16'`. -/
def aspectViolation (r : GenerateVideoRequest) : Bool :=
  isVeo3 r.model && (r.aspectRatio == .ar9x16)

/-- The condition of the handler's second early return:
`isVeo3 && !imageFile && !useImageId && !useLatestImage && personGeneration && personGeneration !== 'allow_all'`. -/
def personGenViolation (r : GenerateVideoRequest) : Bool :=
  isVeo3 r.model && !hasImageInput r && pgTruthy r.personGeneration
    && (r.personGeneration != some .allow_all)

/-- The condition of the handler's third early return:
`!isVeo2 && numberOfVideos && numberOfVideos > 1`. -/
def numVideosViolation (r : GenerateVideoRequest) : Bool :=
  !isVeo2 r.model && natTruthy r.numberOfVideos && decide (r.numberOfVideos > 1)

/-- Outcome of the three model-specific validation checks, in the order
the handler performs them. -/
inductive VideoValidation
  | invalidAspect
  | invalidPersonGen
  | invalidNumberOfVideos
  | ok
  deriving DecidableEq

/-- The validation that runs before any outbound call. -/
def validateGenerateVideo (r : GenerateVideoRequest) : VideoValidation :=
  if aspectViolation r then .invalidAspect
  else if personGenViolation r then .invalidPersonGen
  else if numVideosViolation r then .invalidNumberOfVideos
  else .ok

/-! ## Video records and the generate-veo-video handler -/

/-- Lifecycle status of a video record. -/
inductive VideoStatus
  | generating
  | ready
  | failed
  deriving DecidableEq

/-- A video record as pushed onto the project memory's `videos` array. -/
structure VideoRecord where
  id : String
  prompt : String
  operationName : Option String := none
  status : VideoStatus
  createdAt : Int
  url : Option String := none
  deriving DecidableEq

/-- Outcome of the `fetch` to the veo generation endpoint: whether the
response was ok, its status text (used in the thrown error message)
and the operation name from its JSON body. -/
structure ProviderEnv where
  fetchOk : Bool
  statusText : String
  operationName : String
  deriving DecidableEq

/-- Result shape of the generate-veo-video handler: the success result
carries operationName and videoId; the failure results carry an error
and a message. -/
structure GenResult where
  success : Bool
  error : Option String := none
  message : String
  operationName : Option String := none
  videoId : Option String := none
  deriving DecidableEq

/-- The generate-veo-video handler.  `newId` stands for
`crypto.randomUUID()` and `now` for `Date.now()`; `videos` is the
project memory's `videos` array.  The result is the returned object,
the updated array, and whether the outbound provider call was made. -/
def generateVideoHandler (r : GenerateVideoRequest) (env : ProviderEnv)
    (newId : String) (now : Int) (videos : List VideoRecord) :
    GenResult × List VideoRecord × Bool :=
  match validateGenerateVideo r with
  | .invalidAspect =>
    (⟨false, some ("INVALID_ASPECT_RATIO"),
      "Veo 3 models only support 16:9 aspect ratio. Use Veo 2 for 9:16.",
      none, none⟩, videos, false)
  | .invalidPersonGen =>
    (⟨false, some ("INVALID_PERSON_GENERATION"),
      "Veo 3 text-to-video only supports \"allow_all\" for person generation. Use \"allow_adult\" only with image input.",
      none, none⟩, videos, false)
  | .invalidNumberOfVideos =>
    (⟨false, some ("INVALID_NUMBER_OF_VIDEOS"),
      "Only Veo 2 supports generating multiple videos. Veo 3 generates one video at a time.",
      none, none⟩, videos, false)
  | .ok =>
    if env.fetchOk then
      let video : VideoRecord :=
        { id := newId, prompt := r.prompt, operationName := some env.operationName,
          status := .generating, createdAt := now }
      (⟨true, none,
        "Video generation started. Operation: " ++ env.operationName,
        some env.operationName, some newId⟩,
        videos ++ [video], true)
    else
      (⟨false, some ("Failed to start video generation: " ++ env.statusText),
        "Failed to start video generation", none, none⟩, videos, true)

/-! ## Base64 (semantics of Buffer encoding and decoding)

`saveImage` runs the payload through `Buffer.from(base64, 'base64')`
and `loadImage` through `buffer.toString('base64')`.  The standard
base64 alphabet and the bit-packing of both directions are modelled
exactly; a character outside the alphabet (which a valid base64 payload
never contains) is totalised to the value 0 by the `% 64`. -/

/-- The 64 characters of the standard base64 alphabet, in value order. -/
def b64Alphabet : List Char :=
  ['A', 'B', 'C', 'D', 'E', 'F', 'G', 'H', 'I', 'J', 'K', 'L', 'M',
   'N', 'O', 'P', 'Q', 'R', 'S', 'T', 'U', 'V', 'W', 'X', 'Y', 'Z',
   'a', 'b', 'c', 'd', 'e', 'f', 'g', 'h', 'i', 'j', 'k', 'l', 'm',
   'n', 'o', 'p', 'q', 'r', 's', 't', 'u', 'v', 'w', 'x', 'y', 'z',
   '0', '1', '2', '3', '4', '5', '6', '7', '8', '9', '+', '/']

/-- The character with a given 6-bit value. -/
def b64Char (n : Nat) : Char := b64Alphabet.getD n '?'

/-- The 6-bit value of a base64 character. -/
def b64Val (c : Char) : Nat := b64Alphabet.indexOf c % 64

/-- Encode a byte list as base64 text with `=` padding, as
`buffer.toString('base64')` does. -/
def b64Encode : List Nat → List Char
  | [] => []
  | [b0] => [b64Char (b0 / 4), b64Char (b0 % 4 * 16), '=', '=']
  | [b0, b1] =>
    [b64Char (b0 / 4), b64Char (b0 % 4 * 16 + b1 / 16), b64Char (b1 % 16 * 4), '=']
  | b0 :: b1 :: b2 :: rest =>
    b64Char (b0 / 4) :: b64Char (b0 % 4 * 16 + b1 / 16) ::
    b64Char (b1 % 16 * 4 + b2 / 64) :: b64Char (b2 % 64) :: b64Encode rest

/-- Decode base64 text into a byte list, honouring `=` padding, as
`Buffer.from(base64, 'base64')` does. -/
def b64Decode : List Char → List Nat
  | c0 :: c1 :: c2 :: c3 :: rest =>
    if c2 = '=' then
      [b64Val c0 * 4 + b64Val c1 / 16]
    else if c3 = '=' then
      [b64Val c0 * 4 + b64Val c1 / 16, b64Val c1 % 16 * 16 + b64Val c2 / 4]
    else
      (b64Val c0 * 4 + b64Val c1 / 16) ::
      (b64Val c1 % 16 * 16 + b64Val c2 / 4) ::
      (b64Val c2 % 4 * 64 + b64Val c3) :: b64Decode rest
  | _ => []

/-! ## Image store

The public image directory of `image-store.ts` is modelled as a map
from file names to stored byte lists; `fs.writeFile` updates the map,
`fs.readFile` looks it up, `fs.unlink` clears the entry (silently, as
the source catches and logs the error when the file is absent). -/

/-- The on-disk image directory. -/
def Disk : Type := String → Option (List Nat)

/-- The file name used for an image id (a fixed `.png` extension). -/
def imageFileName (imageId : String) : String := imageId ++ ".png"

/-- The character class of the regex `\w`. -/
def isWordChar (c : Char) : Bool := c.isAlphanum || c == '_'

/-- Embeds `base64Data.replace(/^data:image\/\w+;base64,/, '')`: when
the payload starts with a data-URL header for an image mime type, the
header is removed; otherwise the payload is returned unchanged. -/
def stripDataUrl (s : List Char) : List Char :=
  if List.take 11 s = String.toList ("data:image/") then
    let rest := List.drop 11 s
    let w := List.takeWhile isWordChar rest
    let tail := List.drop w.length rest
    if w ≠ [] ∧ List.take 8 tail = String.toList (";base64,") then
      List.drop 8 tail
    else s
  else s

/-- The byte content a payload stands for: its base64 body (after any
data-URL header) decoded. -/
def payloadBytes (base64Data : String) : List Nat :=
  b64Decode (stripDataUrl base64Data.toList)

/-- saveImage: strips a data-URL header if present, decodes the base64
body into a buffer, writes `imageId.png` into the public directory, and
returns the public URL. -/
def saveImage (imageId : String) (base64Data : String) (disk : Disk) :
    String × Disk :=
  let buffer := payloadBytes base64Data
  let filename := imageFileName imageId
  ("/generated-images/" ++ filename,
    fun k => if k = filename then some buffer else disk k)

/-- loadImage: reads `imageId.png` and returns it as a png data URL, or
null when the read fails. -/
def loadImage (imageId : String) (disk : Disk) : Option String :=
  match disk (imageFileName imageId) with
  | some buffer => some ("data:image/png;base64," ++ String.mk (b64Encode buffer))
  | none => none

/-- deleteImage: unlinks `imageId.png`; a failure (file absent) is
caught and logged, so the result is the directory without the entry. -/
def deleteImage (imageId : String) (disk : Disk) : Disk :=
  fun k => if k = imageFileName imageId then none else disk k

/-- clearProjectImages: deletes each listed image in turn. -/
def clearProjectImages (imageIds : List String) (disk : Disk) : Disk :=
  imageIds.foldl (fun d i => deleteImage i d) disk

/-! ## Base64 round-trip facts -/

/-- Each 6-bit value is recovered from its base64 character. -/
theorem b64Val_b64Char_fin : ∀ i : Fin 64, b64Val (b64Char i.val) = i.val := by
  decide

/-- Each 6-bit value is recovered from its base64 character. -/
theorem b64Val_b64Char (n : Nat) (h : n < 64) : b64Val (b64Char n) = n :=
  b64Val_b64Char_fin ⟨n, h⟩

/-- No base64 character is the padding character. -/
theorem b64Char_ne_pad_fin : ∀ i : Fin 64, b64Char i.val ≠ '=' := by
  decide

/-- No base64 character is the padding character. -/
theorem b64Char_ne_pad (n : Nat) (h : n < 64) : b64Char n ≠ '=' :=
  b64Char_ne_pad_fin ⟨n, h⟩

/-- Decoded values are 6-bit combinations, hence below 64 each. -/
theorem b64Val_lt (c : Char) : b64Val c < 64 :=
  Nat.mod_lt _ (by norm_num)

/-- Every byte produced by the decoder is a byte. -/
theorem b64Decode_lt : ∀ (s : List Char), ∀ x ∈ b64Decode s, x < 256
  | [], x, hx => by simp [b64Decode] at hx
  | [_], x, hx => by simp [b64Decode] at hx
  | [_, _], x, hx => by simp [b64Decode] at hx
  | [_, _, _], x, hx => by simp [b64Decode] at hx
  | c0 :: c1 :: c2 :: c3 :: rest, x, hx => by
    have h0 := b64Val_lt c0
    have h1 := b64Val_lt c1
    have h2 := b64Val_lt c2
    have h3 := b64Val_lt c3
    simp only [b64Decode] at hx
    split at hx
    · simp only [List.mem_singleton] at hx
      omega
    · split at hx
      · simp only [List.mem_cons, List.not_mem_nil, or_false] at hx
        rcases hx with h | h <;> omega
      · simp only [List.mem_cons] at hx
        rcases hx with h | h | h | h
        · omega
        · omega
        · omega
        · exact b64Decode_lt rest x h

/-- Decoding inverts encoding on byte lists. -/
theorem b64Decode_b64Encode : ∀ l : List Nat, (∀ b ∈ l, b < 256) →
    b64Decode (b64Encode l) = l
  | [], _ => rfl
  | [b0], h => by
    have hb0 : b0 < 256 := h b0 (by simp)
    have e0 := b64Val_b64Char (b0 / 4) (by omega)
    have e1 := b64Val_b64Char (b0 % 4 * 16) (by omega)
    simp only [b64Encode, b64Decode, if_true, e0, e1, List.cons.injEq, and_true]
    omega
  | [b0, b1], h => by
    have hb0 : b0 < 256 := h b0 (by simp)
    have hb1 : b1 < 256 := h b1 (by simp)
    have e0 := b64Val_b64Char (b0 / 4) (by omega)
    have e1 := b64Val_b64Char (b0 % 4 * 16 + b1 / 16) (by omega)
    have e2 := b64Val_b64Char (b1 % 16 * 4) (by omega)
    have n2 := b64Char_ne_pad (b1 % 16 * 4) (by omega)
    simp only [b64Encode, b64Decode, n2, if_false, if_true, e0, e1, e2,
      List.cons.injEq, and_true]
    constructor
    · omega
    · omega
  | b0 :: b1 :: b2 :: rest, h => by
    have hb0 : b0 < 256 := h b0 (by simp)
    have hb1 : b1 < 256 := h b1 (by simp)
    have hb2 : b2 < 256 := h b2 (by simp)
    have ih := b64Decode_b64Encode rest (fun b hb => h b (by simp [hb]))
    have e0 := b64Val_b64Char (b0 / 4) (by omega)
    have e1 := b64Val_b64Char (b0 % 4 * 16 + b1 / 16) (by omega)
    have e2 := b64Val_b64Char (b1 % 16 * 4 + b2 / 64) (by omega)
    have e3 := b64Val_b64Char (b2 % 64) (by omega)
    have n2 := b64Char_ne_pad (b1 % 16 * 4 + b2 / 64) (by omega)
    have n3 := b64Char_ne_pad (b2 % 64) (by omega)
    simp only [b64Encode, b64Decode, n2, n3, if_false, e0, e1, e2, e3, ih,
      List.cons.injEq]
    refine ⟨by omega, by omega, by omega, trivial⟩

/-- Stripping the header that `loadImage` prepends recovers the body. -/
theorem stripDataUrl_png (l : List Char) :
    stripDataUrl (String.toList ("data:image/png;base64,") ++ l) = l := by
  simp [stripDataUrl, isWordChar, String.toList, List.takeWhile]

/-- Claim C3: for every image id and every base64 or data-URL payload,
saveImage followed by loadImage on the same id returns a present result
whose decoded bytes are exactly the bytes encoded by the saved payload,
and deleteImage followed by loadImage returns an absent result. -/
theorem saveImage_loadImage_roundtrip (imageId base64Data : String) (disk : Disk) :
    (loadImage imageId (saveImage imageId base64Data disk).2).map payloadBytes
      = some (payloadBytes base64Data)
    ∧ loadImage imageId (deleteImage imageId disk) = none := by
  constructor
  · show (loadImage imageId fun k =>
      if k = imageFileName imageId then some (payloadBytes base64Data) else disk k).map
        payloadBytes = some (payloadBytes base64Data)
    have hdata : ∀ l : List Char, ("data:image/png;base64," ++ String.mk l).toList
        = String.toList ("data:image/png;base64,") ++ l := by
      intro l
      simp [String.toList, String.data_append]
    simp only [loadImage, if_true, Option.map_some']
    unfold payloadBytes
    rw [hdata, stripDataUrl_png]
    exact congrArg some (b64Decode_b64Encode _ (b64Decode_lt _))
  · simp [loadImage, deleteImage]

/-! ## Analytics context (veo-analytics)

JavaScript numbers are modelled as exact rationals; `Date.now()` is an
explicit parameter. -/

/-- The `type` parameter of a track-generation call. -/
inductive GenType
  | video
  | image
  deriving DecidableEq

/-- An entry of the append-only analytics event log; `data` carries the
success flag and the optional duration of the call. -/
structure AnalyticsEvent where
  type : String
  timestamp : Int
  success : Bool
  duration : Option ℚ
  deriving DecidableEq

/-- The `costs` aggregates (estimatedCost is in cents). -/
structure AnalyticsCosts where
  totalVideos : Nat
  totalImages : Nat
  estimatedCost : ℚ
  deriving DecidableEq

/-- The `performance` aggregates (times in seconds). -/
structure AnalyticsPerformance where
  averageVideoTime : ℚ
  averageImageTime : ℚ
  failureRate : ℚ
  deriving DecidableEq

/-- The veo-analytics container memory. -/
structure AnalyticsMemory where
  events : List AnalyticsEvent
  costs : AnalyticsCosts
  performance : AnalyticsPerformance
  deriving DecidableEq

/-- The analytics context `create()` value. -/
def freshAnalytics : AnalyticsMemory :=
  { events := []
    costs := { totalVideos := 0, totalImages := 0, estimatedCost := 0 }
    performance := { averageVideoTime := 0, averageImageTime := 0, failureRate := 0 } }

/-- JavaScript truthiness of the optional duration in `if (duration)`:
absent and zero are both falsy. -/
def durTruthy : Option ℚ → Bool
  | none => false
  | some d => d != 0

/-- The event type string recorded for a generation type. -/
def eventTypeName (ty : GenType) : String :=
  if ty = GenType.video then "video_generated" else "image_generated"

/-- The track-generation handler: pushes one event, then on success
bumps the counters, accrues the fixed per-unit cost, and (for a truthy
duration on a video) folds the duration into the running average using
the post-increment count. -/
def trackGeneration (ty : GenType) (success : Bool) (duration : Option ℚ)
    (now : Int) (m : AnalyticsMemory) : AnalyticsMemory :=
  let m1 := { m with events := m.events ++ [⟨eventTypeName ty, now, success, duration⟩] }
  if success then
    match ty with
    | .video =>
      let m2 := { m1 with costs := { m1.costs with
        totalVideos := m1.costs.totalVideos + 1,
        estimatedCost := m1.costs.estimatedCost + 50 } }
      if durTruthy duration then
        let avg := m2.performance.averageVideoTime
        let count := m2.costs.totalVideos
        { m2 with performance := { m2.performance with
            averageVideoTime := (avg * ((count : ℚ) - 1) + duration.getD 0) / (count : ℚ) } }
      else m2
    | .image =>
      { m1 with costs := { m1.costs with
        totalImages := m1.costs.totalImages + 1,
        estimatedCost := m1.costs.estimatedCost + 10 } }
  else m1

/-- A sequence of successful video track-generation calls with the
given durations, applied left to right to an analytics memory. -/
def runVideoTracks (durations : List ℚ) (m : AnalyticsMemory) : AnalyticsMemory :=
  durations.foldl (fun s d => trackGeneration .video true (some d) 0 s) m

/-! ## Media library context -/

/-- A video record of the media-library container. -/
structure MLVideo where
  id : String
  prompt : String
  url : Option String := none
  status : VideoStatus
  operationName : Option String := none
  createdAt : Int
  deriving DecidableEq

/-- An image record of the media-library container. -/
structure MLImage where
  id : String
  prompt : String
  url : Option String := none
  createdAt : Int
  deriving DecidableEq

/-- A named collection of media ids. -/
structure MLCollection where
  name : String
  videoIds : List String
  imageIds : List String
  deriving DecidableEq

/-- The media-library container memory. -/
structure MediaLibraryMemory where
  videos : List MLVideo
  images : List MLImage
  collections : List MLCollection
  deriving DecidableEq

/-- The media-library context `create()` value. -/
def freshMediaLibrary : MediaLibraryMemory :=
  { videos := [], images := [], collections := [] }

/-- `ctx.memory.videos.find(v => v.id === videoId)` followed by the in
place mutation `video.status = status; if (url) video.url = url`: the
first matching record is updated, the rest are untouched. -/
def updateFirstVideoById (videoId : String) (status : VideoStatus) (url : Option String) :
    List MLVideo → List MLVideo
  | [] => []
  | v :: rest =>
    if v.id = videoId then
      { v with status := status, url := if strTruthy url then url else v.url } :: rest
    else v :: updateFirstVideoById videoId status url rest

/-- Result shape of update-video-status. -/
structure UpdateResult where
  updated : Bool
  deriving DecidableEq

/-- The update-video-status handler of the media-library context. -/
def updateVideoStatusHandler (videoId : String) (status : VideoStatus) (url : Option String)
    (m : MediaLibraryMemory) : UpdateResult × MediaLibraryMemory :=
  (⟨(m.videos.find? (fun v => v.id == videoId)).isSome⟩,
    { m with videos := updateFirstVideoById videoId status url m.videos })

/-! ## Preferences and video-project containers -/

/-- Video generation preferences. -/
structure VideoSettings where
  aspectRatio : String
  model : String
  defaultNegativePrompt : Option String := none
  preferredStyle : Option String := none
  deriving DecidableEq

/-- Image generation preferences. -/
structure ImageSettings where
  preferredModel : Option String := none
  defaultStyle : Option String := none
  deriving DecidableEq

/-- A saved workflow template (its steps are free-form values; only
their count matters to the embedded claims, so they are kept opaque as
strings). -/
structure WorkflowTemplate where
  name : String
  steps : List String
  deriving DecidableEq

/-- The veo-preferences container memory. -/
structure PreferencesMemory where
  videoSettings : VideoSettings
  imageSettings : ImageSettings
  workflowTemplates : List WorkflowTemplate
  deriving DecidableEq

/-- The preferences context `create()` value. -/
def freshPreferences : PreferencesMemory :=
  { videoSettings := { aspectRatio := "16:9", model := "veo-3.0-generate-preview" }
    imageSettings := {}
    workflowTemplates := [] }

/-- A step of a recorded workflow. -/
structure WorkflowStep where
  type : String
  status : String := "pending"
  deriving DecidableEq

/-- A recorded (never executed) workflow. -/
structure Workflow where
  id : String
  name : String
  steps : List WorkflowStep
  startedAt : Int
  deriving DecidableEq

/-- An image record of the video-project container. -/
structure ImageRecord where
  id : String
  prompt : String
  url : String
  createdAt : Int
  deriving DecidableEq

/-- The video-project container memory; it duplicates media arrays
"directly to main context for simple access" besides the dedicated
media-library container. -/
structure VideoProjectMemory where
  projectName : String
  sessionCount : Nat
  activeWorkflows : List Workflow
  videos : List VideoRecord
  images : List ImageRecord
  deriving DecidableEq

/-- The video-project context `create()` value. -/
def freshProject : VideoProjectMemory :=
  { projectName := "Untitled Project", sessionCount := 0,
    activeWorkflows := [], videos := [], images := [] }

/-- The four containers composed for one `(userId, projectId)` key by
the `.use` composition.  An action reads and writes the memory of the
context it is declared on: the veoActions (generate-veo-video,
check-video-status, clear-project, ...) are declared on the
video-project context, so their `ctx.memory` is the project memory
alone. -/
structure ComposedState where
  project : VideoProjectMemory
  analytics : AnalyticsMemory
  preferences : PreferencesMemory
  mediaLibrary : MediaLibraryMemory
  deriving DecidableEq

/-- The composed state right after creation. -/
def freshState : ComposedState :=
  { project := freshProject, analytics := freshAnalytics,
    preferences := freshPreferences, mediaLibrary := freshMediaLibrary }

/-- The empty public image directory. -/
def emptyDisk : Disk := fun _ => none

/-! ## clear-project and check-video-status handlers -/

/-- Result shape of clear-project.  Note the unconfirmed branch returns
only `success` and `message`, with no `error` field. -/
structure ClearResult where
  success : Bool
  error : Option String := none
  message : String
  deriving DecidableEq

/-- The clear-project handler.  Its `ctx.memory` is the video-project
memory: the guards on `videos`, `images` and `activeWorkflows` see
(always truthy) arrays, while `ctx.memory.collections` does not exist
on this memory, so that guard never fires; the media-library
container's own memory is not in the handler's scope.  Disk files of
the project's image ids (after `filter(Boolean)`, which drops falsy
ids) are deleted first. -/
def clearProject (confirm : Bool) (s : ComposedState) (disk : Disk) :
    ClearResult × ComposedState × Disk :=
  if !confirm then
    (⟨false, none, "Please confirm to clear the project"⟩, s, disk)
  else
    let imageIds := (s.project.images.map (fun img => img.id)).filter (fun i => i != "")
    let disk1 := clearProjectImages imageIds disk
    let proj := { s.project with videos := [], images := [], activeWorkflows := [] }
    (⟨true, none, "Project cleared successfully"⟩, { s with project := proj }, disk1)

/-- Outcome of the operation-status fetch and of the artifact download
inside check-video-status: whether the status fetch succeeded, the
reported completion flag, the optional artifact uri, whether the
download succeeded, the object URL created for the blob, and the
reported progress. -/
structure OperationEnv where
  fetchOk : Bool
  statusText : String
  done : Bool
  fileUri : Option String := none
  downloadOk : Bool := false
  blobUrl : String := ""
  progressPercent : Option ℚ := none
  deriving DecidableEq

/-- Result shape of check-video-status.  Note the failed-generation
branch returns `success`, `status` and `message` with no `error`
field. -/
structure CheckResult where
  success : Bool
  status : Option String := none
  url : Option String := none
  progress : Option ℚ := none
  error : Option String := none
  message : String
  deriving DecidableEq

/-- `ctx.memory.videos.find(v => v.operationName === operationName)`
followed by `video.status = 'ready'; video.url = url`: the first match
is set to ready with the blob URL. -/
def updateFirstVideoByOperation (operationName : String) (blobUrl : String) :
    List VideoRecord → List VideoRecord
  | [] => []
  | v :: rest =>
    if v.operationName = some operationName then
      { v with status := .ready, url := some blobUrl } :: rest
    else v :: updateFirstVideoByOperation operationName blobUrl rest

/-- The check-video-status handler.  The numeric progress interpolated
into the processing message is elided from the message text. -/
def checkVideoStatusHandler (operationName : String) (env : OperationEnv)
    (videos : List VideoRecord) : CheckResult × List VideoRecord :=
  if !env.fetchOk then
    (⟨false, none, none, none,
      some ("Failed to check operation status: " ++ env.statusText),
      "Failed to check video status"⟩, videos)
  else if env.done then
    match env.fileUri with
    | some _ =>
      if env.downloadOk then
        (⟨true, some ("ready"), some env.blobUrl, none, none, "Video is ready!"⟩,
          updateFirstVideoByOperation operationName env.blobUrl videos)
      else
        (⟨false, some ("failed"), none, none, none, "Video generation failed"⟩, videos)
    | none =>
      (⟨false, some ("failed"), none, none, none, "Video generation failed"⟩, videos)
  else
    (⟨true, some ("processing"), none, some (env.progressPercent.getD 0), none,
      "Video is still processing..."⟩, videos)

/-! ## Model family computation lemmas -/

/-- Both schema models with a `veo-3.0` id prefix form the Veo 3 family. -/
theorem isVeo3_iff (m : VeoModel) : isVeo3 m = true ↔ m = .veo3 ∨ m = .veo3fast := by
  cases m <;> simp <;> decide

/-- The stable model is the only Veo 2 model. -/
theorem isVeo2_iff (m : VeoModel) : isVeo2 m = true ↔ m = .veo2 := by
  cases m <;> simp <;> decide

/-- The two families are disjoint. -/
theorem isVeo2_eq_false_of_isVeo3 (m : VeoModel) (h : isVeo3 m = true) :
    isVeo2 m = false := by
  cases m <;> revert h <;> decide

/-! ## Claim C9 -/

/-- Claim C9: executing clear-project with confirm=false returns a
failure result and leaves the entire composed state and the on-disk
image directory unchanged. -/
theorem clearProject_unconfirmed_frame (s : ComposedState) (disk : Disk) :
    (clearProject false s disk).1.success = false
    ∧ (clearProject false s disk).2.1 = s
    ∧ (clearProject false s disk).2.2 = disk :=
  ⟨rfl, rfl, rfl⟩

/-! ## Claim C10 -/

/-- Claim C10: a track-generation call with success=false appends
exactly one event to the events log and leaves every aggregate field
(costs and performance) unchanged. -/
theorem trackGeneration_failure_frame (ty : GenType) (duration : Option ℚ)
    (now : Int) (m : AnalyticsMemory) :
    (trackGeneration ty false duration now m).events
        = m.events ++ [⟨eventTypeName ty, now, false, duration⟩]
    ∧ (trackGeneration ty false duration now m).costs = m.costs
    ∧ (trackGeneration ty false duration now m).performance = m.performance := by
  simp [trackGeneration]

/-! ## Claim C4 -/

/-- Claim C4: a generate-veo-video request with a Veo 3 family model
and aspect ratio 9:16 is answered with the INVALID_ASPECT_RATIO
failure, with no outbound provider call and no state mutation. -/
theorem generateVideo_rejects_9x16 (r : GenerateVideoRequest) (env : ProviderEnv)
    (newId : String) (now : Int) (videos : List VideoRecord)
    (hm : isVeo3 r.model = true) (ha : r.aspectRatio = AspectRatio.ar9x16) :
    (generateVideoHandler r env newId now videos).1.success = false
    ∧ (generateVideoHandler r env newId now videos).1.error = some ("INVALID_ASPECT_RATIO")
    ∧ (generateVideoHandler r env newId now videos).2.1 = videos
    ∧ (generateVideoHandler r env newId now videos).2.2 = false := by
  have hv : validateGenerateVideo r = .invalidAspect := by
    simp [validateGenerateVideo, aspectViolation, hm, ha]
  simp [generateVideoHandler, hv]

/-- Witness for C4: the default Veo 3 model with a 9:16 request. -/
theorem generateVideo_rejects_9x16_witness :
    (generateVideoHandler { prompt := "p", aspectRatio := .ar9x16 }
      ⟨true, "", "op-1"⟩ ("id-1") 0 []).1.error = some ("INVALID_ASPECT_RATIO") :=
  (generateVideo_rejects_9x16 { prompt := "p", aspectRatio := .ar9x16 }
    ⟨true, "", "op-1"⟩ ("id-1") 0 [] (by decide) rfl).2.1

/-! ## Claim C5 -/

/-- The provider-failure error string never collides with the
person-generation validation code (length argument). -/
theorem fetchError_ne_person_code (s : String) :
    ("Failed to start video generation: " ++ s) ≠ "INVALID_PERSON_GENERATION" := by
  intro h
  have h2 := congrArg String.length h
  rw [String.length_append] at h2
  have l1 : String.length ("Failed to start video generation: ") = 34 := by decide
  have l2 : String.length ("INVALID_PERSON_GENERATION") = 25 := by decide
  rw [l1, l2] at h2
  omega

/-- Claim C5: a Veo 3 family request with no image input and a
person-generation policy other than allow_all fails validation without
an outbound call; the same policy with an image input supplied is never
rejected for person generation. -/
theorem generateVideo_person_policy (r : GenerateVideoRequest) (env : ProviderEnv)
    (newId : String) (now : Int) (videos : List VideoRecord) (p : PersonGen)
    (hm : isVeo3 r.model = true) (hp : r.personGeneration = some p)
    (hpa : p ≠ PersonGen.allow_all) :
    (r.imageFile = none → r.useImageId = none → r.useLatestImage = none →
      (generateVideoHandler r env newId now videos).1.success = false
      ∧ (generateVideoHandler r env newId now videos).2.2 = false)
    ∧ (hasImageInput r = true →
      validateGenerateVideo r ≠ .invalidPersonGen
      ∧ (generateVideoHandler r env newId now videos).1.error
          ≠ some ("INVALID_PERSON_GENERATION")) := by
  constructor
  · intro h1 h2 h3
    have hni : hasImageInput r = false := by
      simp [hasImageInput, h1, h2, h3, strTruthy, boolTruthy]
    have hpg : personGenViolation r = true := by
      simp [personGenViolation, hm, hni, pgTruthy, hp, hpa]
    by_cases hA : aspectViolation r = true
    · have hv : validateGenerateVideo r = .invalidAspect := by
        simp [validateGenerateVideo, hA]
      simp [generateVideoHandler, hv]
    · have hv : validateGenerateVideo r = .invalidPersonGen := by
        simp [validateGenerateVideo, hA, hpg]
      simp [generateVideoHandler, hv]
  · intro hi
    have hpg : personGenViolation r = false := by
      simp [personGenViolation, hi]
    have hv : validateGenerateVideo r ≠ VideoValidation.invalidPersonGen := by
      rcases hA : aspectViolation r <;> rcases hN : numVideosViolation r <;>
        simp [validateGenerateVideo, hA, hpg, hN]
    refine ⟨hv, ?_⟩
    rcases hv2 : validateGenerateVideo r with _ | _ | _ | _
    · simp [generateVideoHandler, hv2]
    · exact absurd hv2 hv
    · simp [generateVideoHandler, hv2]
    · rcases hf : env.fetchOk
      · simp only [generateVideoHandler, hv2, hf, Bool.false_eq_true, if_false,
          ne_eq, Option.some.injEq]
        exact fetchError_ne_person_code env.statusText
      · simp [generateVideoHandler, hv2, hf]

/-- Witness for C5: a pure-text allow_adult request is rejected; the
same policy with an uploaded image passes the person validation. -/
theorem generateVideo_person_policy_witness :
    ((generateVideoHandler { prompt := "p", personGeneration := some PersonGen.allow_adult }
        ⟨true, "", "op-3"⟩ ("id-3") 0 []).1.success = false)
    ∧ validateGenerateVideo
        { prompt := "p", personGeneration := some PersonGen.allow_adult,
          imageFile := some "img" } ≠ .invalidPersonGen :=
  ⟨((generateVideo_person_policy
      { prompt := "p", personGeneration := some PersonGen.allow_adult }
      ⟨true, "", "op-3"⟩ ("id-3") 0 [] PersonGen.allow_adult
      (by decide) rfl (by decide)).1 rfl rfl rfl).1,
    ((generateVideo_person_policy
      { prompt := "p", personGeneration := some PersonGen.allow_adult,
        imageFile := some "img" }
      ⟨true, "", "op-3"⟩ ("id-3") 0 [] PersonGen.allow_adult
      (by decide) rfl (by decide)).2 (by decide)).1⟩

/-! ## Claim C6 -/

/-- Claim C6 (amended): with numberOfVideos above one, a Veo 2 request
passes all validation; a Veo 3 family request that passes the earlier
aspect-ratio and person-generation checks is rejected with
INVALID_NUMBER_OF_VIDEOS, without an outbound call or state change. -/
theorem generateVideo_multi_videos (r : GenerateVideoRequest) (env : ProviderEnv)
    (newId : String) (now : Int) (videos : List VideoRecord)
    (hn : r.numberOfVideos > 1) :
    (r.model = VeoModel.veo2 →
      validateGenerateVideo r = .ok
      ∧ (generateVideoHandler r env newId now videos).2.2 = true)
    ∧ (isVeo3 r.model = true → r.aspectRatio = AspectRatio.ar16x9 →
      personGenViolation r = false →
      (generateVideoHandler r env newId now videos).1.success = false
      ∧ (generateVideoHandler r env newId now videos).1.error = some ("INVALID_NUMBER_OF_VIDEOS")
      ∧ (generateVideoHandler r env newId now videos).2.1 = videos
      ∧ (generateVideoHandler r env newId now videos).2.2 = false) := by
  constructor
  · intro hm
    have h3 : isVeo3 r.model = false := by rw [hm]; decide
    have h2 : isVeo2 r.model = true := by rw [hm]; decide
    have hv : validateGenerateVideo r = .ok := by
      simp [validateGenerateVideo, aspectViolation, personGenViolation,
        numVideosViolation, h3, h2]
    refine ⟨hv, ?_⟩
    rcases hf : env.fetchOk <;> simp [generateVideoHandler, hv, hf]
  · intro hm ha hpg
    have h2 : isVeo2 r.model = false := isVeo2_eq_false_of_isVeo3 r.model hm
    have hA : aspectViolation r = false := by
      simp [aspectViolation, ha]
    have hN : numVideosViolation r = true := by
      simp [numVideosViolation, h2, natTruthy, hn]
      omega
    have hv : validateGenerateVideo r = .invalidNumberOfVideos := by
      simp [validateGenerateVideo, hA, hpg, hN]
    simp [generateVideoHandler, hv]

/-- Counterexample to C6 as stated: a Veo 3 request with
numberOfVideos = 2 but aspect ratio 9:16 is answered with
INVALID_ASPECT_RATIO, not with INVALID_NUMBER_OF_VIDEOS. -/
theorem generateVideo_multi_videos_counterexample :
    (generateVideoHandler
        { prompt := "p", aspectRatio := .ar9x16, numberOfVideos := 2 }
        ⟨true, "", "op-2"⟩ ("id-2") 0 []).1.error ≠ some ("INVALID_NUMBER_OF_VIDEOS")
    ∧ (generateVideoHandler
        { prompt := "p", aspectRatio := .ar9x16, numberOfVideos := 2 }
        ⟨true, "", "op-2"⟩ ("id-2") 0 []).1.error = some ("INVALID_ASPECT_RATIO") := by
  constructor
  · decide
  · decide

/-- Witness for C6: Veo 2 with two videos passes validation; Veo 3 at
16:9 with two videos is rejected for the video count. -/
theorem generateVideo_multi_videos_witness :
    validateGenerateVideo { prompt := "p", model := VeoModel.veo2, numberOfVideos := 2 } = .ok
    ∧ (generateVideoHandler { prompt := "p", model := VeoModel.veo3, numberOfVideos := 2 }
        ⟨true, "", "op-4"⟩ ("id-4") 0 []).1.error = some ("INVALID_NUMBER_OF_VIDEOS") :=
  ⟨((generateVideo_multi_videos { prompt := "p", model := VeoModel.veo2, numberOfVideos := 2 }
      ⟨true, "", "op-4"⟩ ("id-4") 0 [] (by decide)).1 rfl).1,
    ((generateVideo_multi_videos { prompt := "p", model := VeoModel.veo3, numberOfVideos := 2 }
      ⟨true, "", "op-4"⟩ ("id-4") 0 [] (by decide)).2 (by decide) rfl (by decide)).2.1⟩

/-! ## Claim C1 -/

/-- Deleting images never recreates an absent file. -/
theorem clearProjectImages_none (ids : List String) (disk : Disk) (k : String)
    (h : disk k = none) : clearProjectImages ids disk k = none := by
  induction ids generalizing disk with
  | nil => exact h
  | cons j rest ih =>
    refine ih (deleteImage j disk) ?_
    unfold deleteImage
    split <;> simp [h]

/-- Every listed image's file is gone after clearProjectImages. -/
theorem clearProjectImages_deletes (ids : List String) (disk : Disk) (i : String)
    (hi : i ∈ ids) : clearProjectImages ids disk (imageFileName i) = none := by
  induction ids generalizing disk with
  | nil => cases hi
  | cons j rest ih =>
    rcases List.mem_cons.mp hi with h | h
    · subst h
      exact clearProjectImages_none rest _ _ (by simp [deleteImage])
    · exact ih (deleteImage j disk) h

/-- Claim C1 (amended): clear-project with confirm=true empties the
project container's own videos, images and activeWorkflows arrays and
deletes the on-disk file of every (truthy-id) image of the project's
images array; the media-library container's videos, images and
collections — and the other composed containers — are left untouched,
because the handler's `ctx.memory` is the project memory alone. -/
theorem clearProject_confirmed (s : ComposedState) (disk : Disk) :
    (clearProject true s disk).1.success = true
    ∧ (clearProject true s disk).2.1.project.videos = []
    ∧ (clearProject true s disk).2.1.project.images = []
    ∧ (clearProject true s disk).2.1.project.activeWorkflows = []
    ∧ (clearProject true s disk).2.1.mediaLibrary = s.mediaLibrary
    ∧ (clearProject true s disk).2.1.analytics = s.analytics
    ∧ (clearProject true s disk).2.1.preferences = s.preferences
    ∧ ∀ img ∈ s.project.images, img.id ≠ "" →
        (clearProject true s disk).2.2 (imageFileName img.id) = none := by
  refine ⟨rfl, rfl, rfl, rfl, rfl, rfl, rfl, ?_⟩
  intro img hmem hid
  show clearProjectImages
      ((s.project.images.map (fun img => img.id)).filter (fun i => i != "")) disk
      (imageFileName img.id) = none
  apply clearProjectImages_deletes
  simp only [List.mem_filter, List.mem_map, bne_iff_ne, ne_eq, decide_eq_true_eq]
  exact ⟨⟨img, hmem, rfl⟩, hid⟩

/-- Counterexample to C1 as stated: clearing does not empty the
media-library container's video array. -/
theorem clearProject_counterexample :
    (clearProject true
      { project := freshProject,
        analytics := freshAnalytics,
        preferences := freshPreferences,
        mediaLibrary :=
          { videos := [{ id := "v1", prompt := "p", status := .ready, createdAt := 0 }],
            images := [], collections := [] } }
      emptyDisk).2.1.mediaLibrary.videos ≠ [] := by
  decide

/-- Witness for C1 at a one-image project. -/
theorem clearProject_confirmed_witness :
    ("a" : String) ≠ ""
    ∧ (clearProject true
        { project := { freshProject with
            images := [{ id := "a", prompt := "p", url := "/generated-images/a.png",
                         createdAt := 0 }] },
          analytics := freshAnalytics, preferences := freshPreferences,
          mediaLibrary := freshMediaLibrary }
        emptyDisk).2.2 (imageFileName ("a")) = none :=
  ⟨by decide,
    (clearProject_confirmed
      { project := { freshProject with
          images := [{ id := "a", prompt := "p", url := "/generated-images/a.png",
                       createdAt := 0 }] },
        analytics := freshAnalytics, preferences := freshPreferences,
        mediaLibrary := freshMediaLibrary }
      emptyDisk).2.2.2.2.2.2.2
      { id := "a", prompt := "p", url := "/generated-images/a.png", createdAt := 0 }
      (List.mem_singleton.mpr rfl) (by decide)⟩

/-! ## Claim C2 -/

/-- One successful video track with a truthy duration: the count goes
up by one and the running average obeys the mean recurrence. -/
theorem trackGeneration_video_step (m : AnalyticsMemory) (d : ℚ) (hd : d ≠ 0) :
    (trackGeneration .video true (some d) 0 m).costs.totalVideos = m.costs.totalVideos + 1
    ∧ (trackGeneration .video true (some d) 0 m).performance.averageVideoTime
        * ((m.costs.totalVideos : ℚ) + 1)
      = m.performance.averageVideoTime * (m.costs.totalVideos : ℚ) + d := by
  have ht : durTruthy (some d) = true := by simp [durTruthy, hd]
  have hne : ((m.costs.totalVideos : ℚ) + 1) ≠ 0 := by positivity
  constructor
  · simp [trackGeneration, ht]
  · simp only [trackGeneration, ht, if_true, Option.getD_some]
    push_cast
    rw [div_mul_cancel₀ _ hne]
    ring

/-- Running successful video tracks keeps the product of the average
and the count equal to the accumulated duration sum. -/
theorem runVideoTracks_invariant (durations : List ℚ) (m : AnalyticsMemory)
    (hnz : ∀ d ∈ durations, d ≠ 0) :
    (runVideoTracks durations m).costs.totalVideos
        = m.costs.totalVideos + durations.length
    ∧ (runVideoTracks durations m).performance.averageVideoTime
        * ((m.costs.totalVideos : ℚ) + durations.length)
      = m.performance.averageVideoTime * (m.costs.totalVideos : ℚ) + durations.sum := by
  induction durations generalizing m with
  | nil => simp [runVideoTracks]
  | cons d rest ih =>
    have hd : d ≠ 0 := hnz d (by simp)
    obtain ⟨h1, h2⟩ := trackGeneration_video_step m d hd
    obtain ⟨ih1, ih2⟩ :=
      ih (trackGeneration .video true (some d) 0 m) (fun x hx => hnz x (by simp [hx]))
    constructor
    · show (runVideoTracks rest (trackGeneration .video true (some d) 0 m)).costs.totalVideos = _
      rw [ih1, h1, List.length_cons]
      omega
    · show (runVideoTracks rest (trackGeneration .video true (some d) 0 m)).performance.averageVideoTime
          * _ = _
      have hc : ((trackGeneration .video true (some d) 0 m).costs.totalVideos : ℚ)
          = (m.costs.totalVideos : ℚ) + 1 := by
        rw [h1]
        push_cast
        ring
      rw [hc] at ih2
      push_cast [List.length_cons, List.sum_cons]
      linear_combination ih2 + h2

/-- Claim C2 (amended): starting from a fresh analytics state, N ≥ 1
successful video tracks with nonzero durations leave averageVideoTime
at the arithmetic mean of the durations, so the final value agrees for
every permutation of the same multiset of durations. -/
theorem trackGeneration_average_mean (durations : List ℚ)
    (hne : durations ≠ []) (hnz : ∀ d ∈ durations, d ≠ 0) :
    (runVideoTracks durations freshAnalytics).performance.averageVideoTime
        = durations.sum / durations.length
    ∧ (∀ ds : List ℚ, ds.Perm durations →
      (runVideoTracks ds freshAnalytics).performance.averageVideoTime
        = (runVideoTracks durations freshAnalytics).performance.averageVideoTime) := by
  have mean : ∀ l : List ℚ, l ≠ [] → (∀ d ∈ l, d ≠ 0) →
      (runVideoTracks l freshAnalytics).performance.averageVideoTime
        = l.sum / l.length := by
    intro l hl hz
    obtain ⟨h1, h2⟩ := runVideoTracks_invariant l freshAnalytics hz
    have hlen : (l.length : ℚ) ≠ 0 := by
      simpa [List.length_eq_zero] using hl
    rw [eq_div_iff hlen]
    simpa [freshAnalytics] using h2
  refine ⟨mean durations hne hnz, ?_⟩
  intro ds hperm
  have hlen := hperm.length_eq
  have hds : ds ≠ [] := by
    intro h
    apply hne
    rw [h] at hlen
    exact List.length_eq_zero.mp hlen.symm
  rw [mean ds hds (fun x hx => hnz x (hperm.mem_iff.mp hx)),
    mean durations hne hnz, hperm.sum_eq, hlen]

/-- Counterexample to C2 as stated: a zero duration is falsy in
`if (duration)`, so the average update is skipped while the count still
advances — after durations 4 and 0 the average is 4, not the mean 2. -/
theorem trackGeneration_average_counterexample :
    (runVideoTracks [4, 0] freshAnalytics).performance.averageVideoTime
      ≠ ([4, 0] : List ℚ).sum / ([4, 0] : List ℚ).length := by
  norm_num [runVideoTracks, trackGeneration, durTruthy, freshAnalytics]

/-- Witness for C2 at the duration list [2, 4]. -/
theorem trackGeneration_average_mean_witness :
    (runVideoTracks [2, 4] freshAnalytics).performance.averageVideoTime
      = ([2, 4] : List ℚ).sum / ([2, 4] : List ℚ).length :=
  (trackGeneration_average_mean [2, 4] (by decide)
    (by intro d hd; fin_cases hd <;> norm_num)).1

/-! ## Claim C7 -/

/-- Claim C7 (amended): the embedded action handlers are total
functions (no exception escapes their boundary) and every failure
result carries a nonempty message; generate-veo-video failures always
carry an error code as well, but clear-project's unconfirmed failure
and check-video-status's failed-generation result omit the error field,
so the uniform shape does not hold for those two results. -/
theorem handlers_failure_shape :
    (∀ (r : GenerateVideoRequest) (env : ProviderEnv) (newId : String) (now : Int)
        (videos : List VideoRecord),
      (generateVideoHandler r env newId now videos).1.success = false →
        (generateVideoHandler r env newId now videos).1.error ≠ none
        ∧ (generateVideoHandler r env newId now videos).1.message ≠ "")
    ∧ (∀ (operationName : String) (env : OperationEnv) (videos : List VideoRecord),
      (checkVideoStatusHandler operationName env videos).1.success = false →
        (checkVideoStatusHandler operationName env videos).1.message ≠ "")
    ∧ (∀ (confirm : Bool) (s : ComposedState) (disk : Disk),
      (clearProject confirm s disk).1.success = false →
        (clearProject confirm s disk).1.message ≠ "") := by
  refine ⟨?_, ?_, ?_⟩
  · intro r env newId now videos hf
    rcases hv : validateGenerateVideo r with _ | _ | _ | _ <;>
      rcases ho : env.fetchOk <;>
      simp [generateVideoHandler, hv, ho] at hf ⊢
  · intro op env videos hf
    rcases h1 : env.fetchOk <;> rcases h2 : env.done <;> rcases h3 : env.fileUri <;>
      rcases h4 : env.downloadOk <;>
      simp [checkVideoStatusHandler, h1, h2, h3, h4] at hf ⊢
  · intro confirm s disk hf
    rcases confirm <;> simp [clearProject] at hf ⊢

/-- Counterexample to C7 as stated: the unconfirmed clear-project
failure result has no error field at all. -/
theorem clearProject_missing_error_counterexample :
    (clearProject false freshState emptyDisk).1.success = false
    ∧ (clearProject false freshState emptyDisk).1.error = none :=
  ⟨rfl, rfl⟩

/-- Witness for C7 at two concrete failing calls. -/
theorem handlers_failure_shape_witness :
    ((generateVideoHandler { prompt := "p", aspectRatio := .ar9x16 }
        ⟨true, "", "op-5"⟩ ("id-5") 0 []).1.error ≠ none)
    ∧ ((clearProject false freshState emptyDisk).1.message ≠ "") :=
  ⟨(handlers_failure_shape.1 { prompt := "p", aspectRatio := .ar9x16 }
      ⟨true, "", "op-5"⟩ ("id-5") 0 [] (by decide)).1,
    handlers_failure_shape.2.2 false freshState emptyDisk (by decide)⟩

/-! ## Claim C8 -/

/-- Claim C8 (amended): check-video-status leaves each project video
unchanged or sets its status to ready — it never writes 'generating' or
'failed' — so along check-video-status sequences a video that has left
'generating' never returns to it; full monotonicity over all operations
fails because update-video-status can write any status (see the
counterexample). -/
theorem checkVideoStatus_status_monotone (operationName : String) (env : OperationEnv)
    (videos : List VideoRecord) :
    List.Forall₂ (fun v v2 : VideoRecord => v2 = v ∨ v2.status = VideoStatus.ready)
      videos (checkVideoStatusHandler operationName env videos).2 := by
  have hself : ∀ l : List VideoRecord,
      List.Forall₂ (fun v v2 : VideoRecord => v2 = v ∨ v2.status = VideoStatus.ready) l l :=
    fun l => List.forall₂_same.mpr (fun v _ => Or.inl rfl)
  have hupd : ∀ l : List VideoRecord,
      List.Forall₂ (fun v v2 : VideoRecord => v2 = v ∨ v2.status = VideoStatus.ready) l
        (updateFirstVideoByOperation operationName env.blobUrl l) := by
    intro l
    induction l with
    | nil => exact List.Forall₂.nil
    | cons v rest ih =>
      unfold updateFirstVideoByOperation
      split
      · exact List.Forall₂.cons (Or.inr rfl) (hself rest)
      · exact List.Forall₂.cons (Or.inl rfl) ih
  rcases h1 : env.fetchOk <;> rcases h2 : env.done <;> rcases h3 : env.fileUri <;>
    rcases h4 : env.downloadOk <;>
    simp [checkVideoStatusHandler, h1, h2, h3, h4] <;>
    first
    | exact hself videos
    | exact hupd videos

/-- Counterexample to C8 as stated: update-video-status sets a ready
media-library video straight back to generating. -/
theorem updateVideoStatus_counterexample :
    (({ videos := [{ id := "v1", prompt := "p", status := VideoStatus.ready, createdAt := 0 }],
        images := [], collections := [] } : MediaLibraryMemory).videos.map
          (fun v => v.status) = [VideoStatus.ready])
    ∧ ((updateVideoStatusHandler ("v1") VideoStatus.generating none
        { videos := [{ id := "v1", prompt := "p", status := VideoStatus.ready, createdAt := 0 }],
          images := [], collections := [] }).2.videos.map
            (fun v => v.status) = [VideoStatus.generating]) := by
  constructor
  · rfl
  · decide

end VeoAgent
